import Mathlib

/-!
Verification of the Pixel Blaster game core (`src/pixel_blaster`).

The Python sources are shallowly embedded: Python floats become real
numbers, Python ints become `ℤ` (or `ℕ` for plainly non-negative
constants), mutable objects become immutable structures with explicit
state passing, and every use of the process-wide random generator is
replaced by an explicit oracle argument (`Rng`) so that the state
transition is a function of the state and the drawn values.

Rendering: the frame buffer is a pure pixel grid (see the `FrameBuffer`
section); `Game.update` models the simulation-state effects of
`Game.update()`, while the only rendering fact a claim needs (whether the
game-over overlay is drawn) is exposed by `Game.renders_game_over`,
which holds exactly on the code path where `draw_game_over` is called
(game.py lines 110-111).
-/

/-! ## Constants (constants.py) -/

def TOP_MARGIN : ℕ := 15
def SCORE_TOP_MARGIN : ℕ := 3
def LIVES_RIGHT_MARGIN : ℕ := 10
def SCREEN_WIDTH : ℕ := 192
def SCREEN_HEIGHT : ℕ := 160
def MAX_SPEED : ℕ := 5
def INITIAL_LIVES : ℤ := 4
def MAX_LIVES : ℤ := 99
def MAX_SCORE : ℤ := 999999
def SHIP_RESPAWN_DELAY : ℤ := 120
def ASTEROID_SPAWN_COUNT : ℕ := 12
def PROJECTILE_SPEED : ℕ := 6
def PROJECTILE_LIFETIME : ℤ := 12
def SCORE_HIT_LARGE : ℤ := 20
def SCORE_HIT_MEDIUM : ℤ := 50
def SCORE_HIT_SMALL : ℤ := 100
def ASTEROID_SPAWN_RADIUS : ℕ := 40
def MAX_ASTEROIDS : ℕ := 20
def POINTS_FOR_NEW_LIFE : ℤ := 5000

/-! ## util.py -/

/-- The x part of `wrap_position`: Python's `x %= SCREEN_WIDTH` on floats,
i.e. `x - SCREEN_WIDTH * floor (x / SCREEN_WIDTH)`. -/
noncomputable def wrapX (x : ℝ) : ℝ :=
  x - (SCREEN_WIDTH : ℝ) * ⌊x / (SCREEN_WIDTH : ℝ)⌋

/-- `util.wrap_position`: wrap x around the screen width, and bounce y back
into the play band `[TOP_MARGIN, SCREEN_HEIGHT]` (y below the HUD strip goes
to `SCREEN_HEIGHT - 1`, y beyond the bottom goes to `TOP_MARGIN + 1`). -/
noncomputable def wrap_position (p : ℝ × ℝ) : ℝ × ℝ :=
  let x := wrapX p.1
  let y :=
    if p.2 < (TOP_MARGIN : ℝ) then (SCREEN_HEIGHT : ℝ) - 1
    else if p.2 > (SCREEN_HEIGHT : ℝ) then (TOP_MARGIN : ℝ) + 1
    else p.2
  (x, y)

theorem wrapX_eq (x : ℝ) : wrapX x = (SCREEN_WIDTH : ℝ) * Int.fract (x / (SCREEN_WIDTH : ℝ)) := by
  have hw : ((SCREEN_WIDTH : ℕ) : ℝ) ≠ 0 := by norm_num [SCREEN_WIDTH]
  unfold wrapX Int.fract
  field_simp

theorem wrapX_nonneg (x : ℝ) : 0 ≤ wrapX x := by
  rw [wrapX_eq]
  have h1 : (0 : ℝ) ≤ Int.fract (x / (SCREEN_WIDTH : ℝ)) := Int.fract_nonneg _
  have h2 : (0 : ℝ) ≤ (SCREEN_WIDTH : ℝ) := by norm_num [SCREEN_WIDTH]
  positivity

theorem wrapX_lt (x : ℝ) : wrapX x < (SCREEN_WIDTH : ℝ) := by
  rw [wrapX_eq]
  have h1 : Int.fract (x / (SCREEN_WIDTH : ℝ)) < 1 := Int.fract_lt_one _
  have h2 : (0 : ℝ) < (SCREEN_WIDTH : ℝ) := by norm_num [SCREEN_WIDTH]
  calc (SCREEN_WIDTH : ℝ) * Int.fract (x / (SCREEN_WIDTH : ℝ))
      < (SCREEN_WIDTH : ℝ) * 1 := by
        exact mul_lt_mul_of_pos_left h1 h2
    _ = (SCREEN_WIDTH : ℝ) := mul_one _

theorem wrapX_of_mem (x : ℝ) (h0 : 0 ≤ x) (h1 : x < (SCREEN_WIDTH : ℝ)) : wrapX x = x := by
  have hw : (0 : ℝ) < (SCREEN_WIDTH : ℝ) := by norm_num [SCREEN_WIDTH]
  have hfloor : ⌊x / (SCREEN_WIDTH : ℝ)⌋ = 0 := by
    rw [Int.floor_eq_zero_iff]
    constructor
    · exact div_nonneg h0 (le_of_lt hw)
    · rw [div_lt_one hw]; simpa using h1
  unfold wrapX
  rw [hfloor]
  simp

theorem wrap_position_mem (p : ℝ × ℝ) :
    0 ≤ (wrap_position p).1 ∧ (wrap_position p).1 < (SCREEN_WIDTH : ℝ) ∧
    (TOP_MARGIN : ℝ) ≤ (wrap_position p).2 ∧ (wrap_position p).2 ≤ (SCREEN_HEIGHT : ℝ) := by
  unfold wrap_position
  refine ⟨wrapX_nonneg _, wrapX_lt _, ?_, ?_⟩ <;>
    · simp only []
      split_ifs with h1 h2 <;>
        · norm_num [TOP_MARGIN, SCREEN_HEIGHT] at *
          try linarith

theorem wrap_position_of_mem (p : ℝ × ℝ)
    (hx0 : 0 ≤ p.1) (hx1 : p.1 < (SCREEN_WIDTH : ℝ))
    (hy0 : (TOP_MARGIN : ℝ) ≤ p.2) (hy1 : p.2 ≤ (SCREEN_HEIGHT : ℝ)) :
    wrap_position p = p := by
  unfold wrap_position
  rw [if_neg (by linarith), if_neg (by linarith), wrapX_of_mem p.1 hx0 hx1]

/-! ## ship.py -/

/-- `Ship._THRUST_POWER`. -/
def THRUST_POWER : ℝ := 0.05

/-- `Ship._EXPLOSION_DURATION`. -/
def EXPLOSION_DURATION : ℤ := 60

/-- The ship state: position, velocity, heading (integer degrees), thrust
flag, lives, and the exploding countdown (`_exploding`; 0 = not exploding).
The fixed pixel shape and color are global data (see `Ship.pixel_map`). -/
structure Ship where
  x : ℝ
  y : ℝ
  vx : ℝ
  vy : ℝ
  direction : ℤ
  thrusting : Bool
  lives : ℤ
  exploding : ℤ

/-- `Ship.__init__`: centered, still, facing up, `INITIAL_LIVES` lives. -/
def Ship.init : Ship :=
  { x := ((SCREEN_WIDTH / 2 : ℕ) : ℝ), y := ((SCREEN_HEIGHT / 2 : ℕ) : ℝ),
    vx := 0, vy := 0, direction := 0, thrusting := false,
    lives := INITIAL_LIVES, exploding := 0 }

/-- `Ship.is_exploding`. -/
def Ship.is_exploding (s : Ship) : Bool := s.exploding > 0

/-- `Ship._pixel_map` (the non-exploding 5x5 shape). -/
def Ship.pixel_map : List (List ℕ) :=
  [[0, 0, 1, 0, 0],
   [0, 0, 1, 0, 0],
   [0, 1, 1, 1, 0],
   [0, 1, 1, 1, 0],
   [1, 1, 1, 1, 1]]

/-- `Ship._gun_position`. -/
def Ship.gun_position : ℤ × ℤ := (0, 2)

/-- `np.radians` / `math.radians` applied to an integer degree count. -/
noncomputable def radians (d : ℤ) : ℝ := (d : ℝ) * Real.pi / 180

/-- `Ship.update`: no-op while exploding; otherwise optionally thrust along
the heading, clamp speed to `MAX_SPEED`, apply the 0.995 friction factor,
integrate position, and wrap. -/
noncomputable def Ship.update (s : Ship) : Ship :=
  if s.is_exploding then s
  else
    let theta := radians s.direction
    let vx0 := if s.thrusting then s.vx + THRUST_POWER * Real.sin theta else s.vx
    let vy0 := if s.thrusting then s.vy + -THRUST_POWER * Real.cos theta else s.vy
    let speed := Real.sqrt (vx0 ^ 2 + vy0 ^ 2)
    let scale := (MAX_SPEED : ℝ) / speed
    let vx1 := if speed > (MAX_SPEED : ℝ) then vx0 * scale else vx0
    let vy1 := if speed > (MAX_SPEED : ℝ) then vy0 * scale else vy0
    let vx2 := vx1 * 0.995
    let vy2 := vy1 * 0.995
    let p := wrap_position (s.x + vx2, s.y + vy2)
    { s with x := p.1, y := p.2, vx := vx2, vy := vy2 }

/-- `Ship.update_explosion`. -/
def Ship.update_explosion (s : Ship) : Ship :=
  if s.exploding > 0 then { s with exploding := s.exploding - 1 }
  else { s with exploding := 0 }

/-- `Ship.reset`. -/
def Ship.reset (s : Ship) : Ship :=
  { s with x := ((SCREEN_WIDTH / 2 : ℕ) : ℝ), y := ((SCREEN_HEIGHT / 2 : ℕ) : ℝ),
           vx := 0, vy := 0, direction := 0, exploding := 0, thrusting := false }

/-- `Ship.rotate_right`. -/
def Ship.rotate_right (s : Ship) : Ship :=
  { s with direction := (s.direction + 5) % 360 }

/-- `Ship.rotate_left`. -/
def Ship.rotate_left (s : Ship) : Ship :=
  { s with direction := (s.direction - 5) % 360 }

/-- `Ship.handle_collision`: ignored while already exploding; otherwise
decrement lives (floored at 0), start the explosion countdown and stop. -/
def Ship.handle_collision (s : Ship) : Ship :=
  if s.exploding > 0 then s
  else
    let lives := s.lives - 1
    let lives := if lives < 0 then 0 else lives
    { s with lives := lives, exploding := EXPLOSION_DURATION, vx := 0, vy := 0 }

/-- Modelled from the spec: `Ship.award_new_life` is invoked from
`Game._update_score` (game.py line 408) but no snapshot of `ship.py`
under `src/` defines it; the spec says crossing a bonus-life threshold
"award[s] one life", so the model increments `lives` by one. -/
def Ship.award_new_life (s : Ship) : Ship :=
  { s with lives := s.lives + 1 }

/-- The ship's speed, `np.sqrt(vx ** 2 + vy ** 2)`. -/
noncomputable def Ship.speed (s : Ship) : ℝ := Real.sqrt (s.vx ^ 2 + s.vy ^ 2)

theorem norm_scale (k a b : ℝ) :
    Real.sqrt ((a * k) ^ 2 + (b * k) ^ 2) = |k| * Real.sqrt (a ^ 2 + b ^ 2) := by
  rw [show (a * k) ^ 2 + (b * k) ^ 2 = k ^ 2 * (a ^ 2 + b ^ 2) by ring,
      Real.sqrt_mul (sq_nonneg k), Real.sqrt_sq_eq_abs]

theorem Ship.update_thrusting (s : Ship) : (s.update).thrusting = s.thrusting := by
  unfold Ship.update
  split_ifs <;> rfl

theorem Ship.speed_update_le (s : Ship) (h : s.thrusting = false) :
    (s.update).speed ≤ s.speed := by
  unfold Ship.update Ship.speed
  by_cases hexp : s.is_exploding = true
  · rw [if_pos hexp]
  · rw [if_neg hexp]
    simp only [h, Bool.false_eq_true, if_false]
    have hMpos : (0 : ℝ) ≤ (MAX_SPEED : ℝ) := by norm_num [MAX_SPEED]
    have hsqrt : 0 ≤ Real.sqrt (s.vx ^ 2 + s.vy ^ 2) := Real.sqrt_nonneg _
    have h5 : |(0.995 : ℝ)| = 0.995 := by norm_num
    by_cases hclamp : Real.sqrt (s.vx ^ 2 + s.vy ^ 2) > (MAX_SPEED : ℝ)
    · -- clamped: speed becomes MAX_SPEED * 0.995 < old speed
      simp only [if_pos hclamp]
      rw [norm_scale, norm_scale]
      have hsp : 0 < Real.sqrt (s.vx ^ 2 + s.vy ^ 2) := by linarith
      have hscale : |(MAX_SPEED : ℝ) / Real.sqrt (s.vx ^ 2 + s.vy ^ 2)| =
          (MAX_SPEED : ℝ) / Real.sqrt (s.vx ^ 2 + s.vy ^ 2) := by
        rw [abs_of_nonneg]
        positivity
      rw [h5, hscale, div_mul_cancel₀ _ (ne_of_gt hsp)]
      nlinarith
    · -- no clamp: only friction
      simp only [if_neg hclamp]
      rw [norm_scale, h5]
      nlinarith

/-! ## asteroid.py -/

/-- `Asteroid.Size`. -/
inductive Asteroid.Size where
  | SMALL
  | MEDIUM
  | LARGE
deriving DecidableEq

/-- RGB color triple. -/
abbrev Color := ℕ × ℕ × ℕ

/-- The asteroid state: position, velocity, size class, and color. The
per-size pixel shapes are the global tables below. -/
structure Asteroid where
  x : ℝ
  y : ℝ
  vx : ℝ
  vy : ℝ
  size : Asteroid.Size
  color : Color

/-- `Asteroid.pixmap_small` (7x7). -/
def Asteroid.pixmap_small : List (List ℕ) :=
  [[0, 0, 1, 1, 0, 0, 0],
   [0, 1, 1, 1, 1, 0, 0],
   [1, 1, 1, 1, 1, 1, 0],
   [1, 1, 1, 1, 1, 1, 1],
   [0, 1, 1, 1, 1, 1, 1],
   [0, 0, 1, 1, 1, 0, 0],
   [0, 0, 1, 1, 0, 0, 0]]

/-- `Asteroid.pixmap_medium` (9x9). -/
def Asteroid.pixmap_medium : List (List ℕ) :=
  [[0, 0, 0, 1, 1, 0, 0, 0, 0],
   [0, 0, 0, 1, 1, 1, 1, 0, 0],
   [0, 0, 1, 1, 1, 1, 1, 1, 0],
   [0, 1, 1, 1, 1, 1, 1, 1, 1],
   [0, 1, 1, 1, 1, 1, 1, 1, 1],
   [1, 1, 1, 1, 1, 1, 1, 1, 0],
   [1, 1, 1, 1, 1, 1, 1, 1, 0],
   [0, 0, 1, 1, 1, 1, 1, 0, 0],
   [0, 0, 0, 1, 1, 1, 0, 0, 0]]

/-- `Asteroid.pixmap_large` (15x15). -/
def Asteroid.pixmap_large : List (List ℕ) :=
  [[0, 0, 0, 0, 0, 1, 1, 0, 1, 0, 0, 0, 0, 0, 0],
   [0, 0, 0, 0, 1, 1, 1, 1, 1, 1, 0, 0, 0, 0, 0],
   [0, 0, 0, 1, 1, 1, 1, 1, 1, 1, 1, 0, 0, 0, 0],
   [0, 0, 1, 1, 1, 1, 1, 1, 1, 1, 1, 1, 0, 0, 0],
   [0, 1, 1, 1, 1, 1, 1, 1, 1, 1, 1, 1, 1, 0, 0],
   [1, 1, 1, 1, 1, 1, 1, 1, 1, 1, 1, 1, 1, 1, 0],
   [1, 1, 1, 1, 1, 1, 1, 1, 1, 1, 1, 1, 1, 1, 0],
   [0, 1, 1, 1, 1, 1, 1, 1, 1, 1, 1, 1, 1, 1, 1],
   [0, 1, 1, 1, 1, 1, 1, 1, 1, 1, 1, 1, 1, 1, 0],
   [1, 1, 1, 1, 1, 1, 1, 1, 1, 1, 1, 1, 1, 1, 1],
   [1, 1, 1, 1, 1, 1, 1, 1, 1, 1, 1, 1, 1, 1, 0],
   [0, 1, 1, 1, 1, 1, 1, 1, 1, 1, 1, 1, 1, 0, 0],
   [0, 0, 1, 0, 1, 1, 1, 1, 1, 1, 1, 1, 0, 0, 0],
   [0, 0, 0, 0, 1, 1, 1, 1, 1, 1, 1, 0, 0, 0, 0],
   [0, 0, 0, 0, 0, 1, 0, 0, 1, 1, 0, 0, 0, 0, 0]]

/-- `Asteroid.pixel_map`: the per-size shape. -/
def Asteroid.pixel_map_of (size : Asteroid.Size) : List (List ℕ) :=
  match size with
  | .SMALL => Asteroid.pixmap_small
  | .MEDIUM => Asteroid.pixmap_medium
  | .LARGE => Asteroid.pixmap_large

/-- `Asteroid.points`: the score value per size class. -/
def Asteroid.points (a : Asteroid) : ℤ :=
  match a.size with
  | .LARGE => SCORE_HIT_LARGE
  | .MEDIUM => SCORE_HIT_MEDIUM
  | .SMALL => SCORE_HIT_SMALL

/-- `Asteroid.initialize_asteroid_speed` draws uniformly from a
size-dependent interval; this is the interval it draws from (the sampled
value itself is supplied by the `Rng` oracle). -/
def Asteroid.speed_range (size : Asteroid.Size) : Set ℝ :=
  match size with
  | .LARGE => Set.Icc 0.1 0.15
  | .MEDIUM => Set.Icc 0.15 0.2
  | .SMALL => Set.Icc 0.2 0.3

/-- `Asteroid.update`: integrate position by velocity, then screen-wrap. -/
noncomputable def Asteroid.update (a : Asteroid) : Asteroid :=
  let x := a.x + a.vx
  let y := a.y + a.vy
  let p := wrap_position (x, y)
  { a with x := p.1, y := p.2 }

/-! ## projectile.py -/

/-- The projectile state: position, fixed heading copied from the ship at
fire time, and the remaining-lifetime counter (the speed is the constant
`PROJECTILE_SPEED`). -/
structure Projectile where
  x : ℝ
  y : ℝ
  direction : ℤ
  frames_remaining : ℤ

/-- `Projectile.__init__`: spawn at the ship's gun point (the ship-local gun
offset rotated by the ship's heading, added to the ship position), copying
the ship's heading, with a fresh lifetime. -/
noncomputable def Projectile.init (source : Ship) : Projectile :=
  let gun_dx := ((Ship.gun_position.1 : ℤ) : ℝ)
  let gun_dy := ((Ship.gun_position.2 : ℤ) : ℝ)
  let angle_rad := radians source.direction
  let rotated_dx := gun_dx * Real.cos angle_rad - gun_dy * Real.sin angle_rad
  let rotated_dy := gun_dx * Real.sin angle_rad + gun_dy * Real.cos angle_rad
  { x := source.x + rotated_dx, y := source.y + rotated_dy,
    direction := source.direction, frames_remaining := PROJECTILE_LIFETIME }

/-- `Projectile.is_alive`. -/
def Projectile.is_alive (p : Projectile) : Bool := p.frames_remaining > 0

/-- `Projectile.update`: no-op once dead; otherwise decrement the lifetime,
advance along the heading at the fixed speed, and wrap. -/
noncomputable def Projectile.update (p : Projectile) : Projectile :=
  if ¬p.is_alive then p
  else
    let angle_rad := radians p.direction
    let x := p.x + (PROJECTILE_SPEED : ℝ) * Real.sin angle_rad
    let y := p.y - (PROJECTILE_SPEED : ℝ) * Real.cos angle_rad
    let q := wrap_position (x, y)
    { x := q.1, y := q.2, direction := p.direction,
      frames_remaining := p.frames_remaining - 1 }

/-! ## game.py -/

/-- `Game.Key`. -/
inductive Game.Key where
  | ANY
  | LEFT
  | RIGHT
  | UP
  | FIRE
deriving DecidableEq

/-- Python's builtin `round` (round half to even), used by the collision
code on float coordinates. -/
noncomputable def pyRound (x : ℝ) : ℤ :=
  if Int.fract x = 1 / 2 then (if 2 ∣ ⌊x⌋ then ⌊x⌋ else ⌊x⌋ + 1) else round x

/-- An axis-aligned bounding box `(x1, y1, x2, y2)` as returned by
`Game._get_bounding_box`. -/
structure Box where
  x1 : ℤ
  y1 : ℤ
  x2 : ℤ
  y2 : ℤ

/-- `Game._get_bounding_box`: box centered on the entity position, sized
from the pixel-map shape scaled by `shrink`, with rounded corners. -/
noncomputable def Game.get_bounding_box (x y : ℝ) (pixmap : List (List ℕ))
    (shrink : ℝ) : Box :=
  let h := pixmap.length
  let w := (pixmap.headD []).length
  let half_w := (w : ℝ) * shrink / 2
  let half_h := (h : ℝ) * shrink / 2
  { x1 := pyRound (x - half_w), y1 := pyRound (y - half_h),
    x2 := pyRound (x + half_w), y2 := pyRound (y + half_h) }

/-- `Game._bounding_box_overlap`. -/
def Game.bounding_box_overlap (box1 box2 : Box) : Bool :=
  !(box1.x2 < box2.x1 || box1.x1 > box2.x2 || box1.y2 < box2.y1 || box1.y1 > box2.y2)

/-- `Game._pixel_in_bounding_box` (half-open bounds). -/
def Game.pixel_in_bounding_box (x y : ℤ) (box : Box) : Bool :=
  box.x1 ≤ x && x < box.x2 && box.y1 ≤ y && y < box.y2

/-- The oracle standing in for the process-wide `np.random` generator.
Each field supplies the values one family of draws produces; the state
transition is a pure function of the state and this oracle. The spawn
placement (`edge` choice plus the two `randint` draws, game.py lines
236-249) is abstracted into the drawn `spawn_pos` value. -/
structure Rng where
  spawn_pos : ℕ → ℝ × ℝ
  spawn_size : ℕ → Asteroid.Size
  spawn_color : ℕ → Color
  spawn_speed : ℕ → ℝ
  spawn_angle : ℕ → ℝ
  split_speeds : ℕ → ℝ × ℝ
  split_sign : ℕ → Bool

/-- The game session state (`Game.__init__` attributes; the frame buffer is
modelled separately, see `FrameBuffer`). -/
structure Game where
  score : ℤ
  ship : Ship
  show_splash_screen : Bool
  respawn_countdown : ℤ
  level : ℤ
  next_bonus_life : ℤ
  asteroids : List Asteroid
  projectiles : List Projectile

/-- `Game._respawn_delay_active`. -/
def Game.respawn_delay_active (g : Game) : Bool := g.respawn_countdown > 0

/-- `Game._update_score`: saturating score update plus the (single,
non-looping) bonus-life threshold check. -/
def Game.update_score (g : Game) (points : ℤ) : Game :=
  if g.score = MAX_SCORE then g
  else
    let g1 := { g with score := g.score + points }
    let g2 :=
      if g1.score ≥ g1.next_bonus_life ∧ g1.ship.lives < MAX_LIVES then
        { g1 with ship := g1.ship.award_new_life,
                  next_bonus_life := g1.next_bonus_life + POINTS_FOR_NEW_LIFE }
      else g1
    if g2.score > MAX_SCORE then { g2 with score := MAX_SCORE } else g2

/-- The rotation-matrix application `rotation_matrix @ v` in
`permute_velocity` (degrees converted to radians first). -/
noncomputable def rotate_deg (angle_deg : ℝ) (v : ℝ × ℝ) : ℝ × ℝ :=
  let angle_rad := angle_deg * Real.pi / 180
  (Real.cos angle_rad * v.1 - Real.sin angle_rad * v.2,
   Real.sin angle_rad * v.1 + Real.cos angle_rad * v.2)

/-- The `permute_velocity` closure inside `Game._handle_asteroid_hit`:
rotate the parent velocity by `angle_deg` degrees, unit-normalize (with a
fallback for the zero vector), and rescale to the sampled `speed` (the
value `Asteroid.initialize_asteroid_speed` drew). -/
noncomputable def permute_velocity (v : ℝ × ℝ) (angle_deg : ℝ) (speed : ℝ) : ℝ × ℝ :=
  let rotated_v := rotate_deg angle_deg v
  let norm := Real.sqrt (rotated_v.1 ^ 2 + rotated_v.2 ^ 2)
  let rv : (ℝ × ℝ) × ℝ := if norm = 0 then ((1, 0), 1) else (rotated_v, norm)
  (rv.1.1 / rv.2 * speed, rv.1.2 / rv.2 * speed)

/-- `Game._handle_asteroid_hit`: LARGE splits into MEDIUMs, MEDIUM into
SMALLs, SMALL into nothing; two children (rotations +20 and -20) below the
asteroid cap, one child with an oracle-chosen sign at or above it.
`speeds` are the two freshly sampled child speeds and `sign` the oracle's
choice for the single-child case. -/
noncomputable def Game.handle_asteroid_hit (g : Game) (asteroid : Asteroid)
    (speeds : ℝ × ℝ) (sign : Bool) : List Asteroid :=
  let angles : List (ℝ × ℝ) :=
    if ¬g.asteroids.length ≥ MAX_ASTEROIDS then [(20, speeds.1), (-20, speeds.2)]
    else [((if sign then 20 else -20), speeds.1)]
  match asteroid.size with
  | .LARGE =>
    angles.map fun a =>
      let velocity := permute_velocity (asteroid.vx, asteroid.vy) a.1 a.2
      { x := asteroid.x, y := asteroid.y, size := Asteroid.Size.MEDIUM,
        color := asteroid.color, vx := velocity.1, vy := velocity.2 }
  | .MEDIUM =>
    angles.map fun a =>
      let velocity := permute_velocity (asteroid.vx, asteroid.vy) a.1 a.2
      { x := asteroid.x, y := asteroid.y, size := Asteroid.Size.SMALL,
        color := asteroid.color, vx := velocity.1, vy := velocity.2 }
  | .SMALL => []

/-- `Game._check_projectile_collision`: the first asteroid whose
0.9-shrunk bounding box contains the projectile's rounded position. -/
noncomputable def Game.check_projectile_collision (g : Game) (projectile : Projectile) :
    Option Asteroid :=
  g.asteroids.find? fun asteroid =>
    Game.pixel_in_bounding_box (pyRound projectile.x) (pyRound projectile.y)
      (Game.get_bounding_box asteroid.x asteroid.y
        (Asteroid.pixel_map_of asteroid.size) 0.9)

/-- `Game._check_ship_collision`: any-asteroid bounding-box overlap with the
ship box (default 0.8 shrink). -/
noncomputable def Game.check_ship_collision (ship : Ship) (asteroids : List Asteroid) : Bool :=
  let ship_box := Game.get_bounding_box ship.x ship.y Ship.pixel_map 0.8
  asteroids.any fun asteroid =>
    Game.bounding_box_overlap ship_box
      (Game.get_bounding_box asteroid.x asteroid.y
        (Asteroid.pixel_map_of asteroid.size) 0.8)

noncomputable instance : DecidableEq Asteroid := Classical.decEq _

noncomputable instance : DecidableEq Projectile := Classical.decEq _

/-- `Game._remove_items`: remove each listed item from the collection when
present (first occurrence, value equality, mirroring `list.remove`). -/
noncomputable def Game.remove_items {T : Type} [DecidableEq T]
    (collection : List T) (items : List T) : List T :=
  items.foldl (fun c item => if item ∈ c then c.erase item else c) collection

/-- Loop accumulator for `Game._update_projectiles`: the orchestrator state
mutated mid-loop (`_update_score`), the mark-then-filter removal lists, the
collected split children, and the count of hits so far (used to index the
oracle's split draws). -/
structure ProjAcc where
  game : Game
  projectiles_to_remove : List Projectile
  asteroids_to_remove : List Asteroid
  new_asteroids : List Asteroid
  hits : ℕ

/-- One iteration of the `for projectile in self._projectiles` loop in
`Game._update_projectiles` (the `draw_projectile` call touches only the
frame buffer and has no simulation-state effect). -/
noncomputable def Game.projectile_step (rng : Rng) (acc : ProjAcc) (pr : Projectile) :
    ProjAcc :=
  let projectile := pr.update
  if projectile.is_alive then
    match acc.game.check_projectile_collision projectile with
    | some hit_asteroid =>
      let g := acc.game.update_score hit_asteroid.points
      let children := g.handle_asteroid_hit hit_asteroid
        (rng.split_speeds acc.hits) (rng.split_sign acc.hits)
      { game := g,
        projectiles_to_remove := acc.projectiles_to_remove ++ [projectile],
        asteroids_to_remove := acc.asteroids_to_remove ++ [hit_asteroid],
        new_asteroids := acc.new_asteroids ++ children,
        hits := acc.hits + 1 }
    | none => acc
  else
    { acc with projectiles_to_remove := acc.projectiles_to_remove ++ [projectile] }

/-- `Game._update_projectiles`: advance every projectile (in-place mutation
becomes a map), resolve projectile-asteroid hits, then apply the deferred
removals and add the split children. -/
noncomputable def Game.update_projectiles (g : Game) (rng : Rng) : Game :=
  let acc := g.projectiles.foldl (Game.projectile_step rng)
    { game := g, projectiles_to_remove := [], asteroids_to_remove := [],
      new_asteroids := [], hits := 0 }
  let updated := g.projectiles.map Projectile.update
  let projectiles := Game.remove_items updated acc.projectiles_to_remove
  let asteroids := Game.remove_items acc.game.asteroids acc.asteroids_to_remove
  let asteroids :=
    if acc.new_asteroids.isEmpty then asteroids else asteroids ++ acc.new_asteroids
  { acc.game with projectiles := projectiles, asteroids := asteroids }

/-- `Game._update_asteroids` (the `draw_asteroid` calls touch only the
frame buffer). -/
noncomputable def Game.update_asteroids (g : Game) : Game :=
  { g with asteroids := g.asteroids.map Asteroid.update }

/-- `Game._start_respawn_delay` followed by `Ship.reset`, or
`Game._update_respawn_delay`, or live-ship physics plus collision handling:
the ship branch of the per-frame update. -/
noncomputable def Game.update_ship (g : Game) : Game :=
  if g.ship.is_exploding then
    let ship := g.ship.update_explosion
    if ¬ship.is_exploding ∧ ship.lives > 0 then
      { g with respawn_countdown := SHIP_RESPAWN_DELAY, ship := ship.reset }
    else
      { g with ship := ship }
  else if g.respawn_delay_active then
    { g with respawn_countdown :=
        if g.respawn_countdown > 0 then g.respawn_countdown - 1 else g.respawn_countdown }
  else if g.ship.lives ≠ 0 then
    let ship := g.ship.update
    let ship :=
      if Game.check_ship_collision ship g.asteroids then ship.handle_collision else ship
    { g with ship := ship }
  else g

/-- `Game._spawn_asteroids`: `count` fresh asteroids, each built from oracle
draws; the velocity follows the no-explicit-velocity branch of
`Asteroid.__init__` (sampled speed times the random heading's cosine/sine). -/
noncomputable def Game.spawn_asteroids (rng : Rng) (count : ℕ) : List Asteroid :=
  (List.range count).map fun i =>
    let pos := rng.spawn_pos i
    let size := rng.spawn_size i
    let speed := rng.spawn_speed i * 1.0
    let angle := rng.spawn_angle i
    { x := pos.1, y := pos.2, size := size, color := rng.spawn_color i,
      vx := Real.cos angle * speed, vy := Real.sin angle * speed }

/-- `Game.update`: the simulation-state effects of one frame (frame-buffer
writes — clear, entity draws, HUD, overlays — have no simulation-state
effect and are omitted here; see `Game.renders_game_over` for the one
rendering fact the claims need). -/
noncomputable def Game.update (g : Game) (rng : Rng) : Game :=
  if g.show_splash_screen then g
  else
    let g1 := ((g.update_projectiles rng).update_asteroids).update_ship
    if g1.ship.lives = 0 then g1
    else if g1.asteroids.length = 0 then
      { g1 with level := g1.level + 1,
                asteroids := g1.asteroids ++ Game.spawn_asteroids rng ASTEROID_SPAWN_COUNT }
    else g1

/-- Holds exactly on the code path where `Game.update` calls
`FrameBuffer.draw_game_over` (game.py lines 110-111): splash dismissed and
zero lives after the simulation passes. -/
noncomputable def Game.renders_game_over (g : Game) (rng : Rng) : Bool :=
  !g.show_splash_screen &&
    (((g.update_projectiles rng).update_asteroids).update_ship).ship.lives = 0

/-- `Game.handle_key`: splash dismissal, rotation, thrust toggling, and
fire gating (respawn delay or exploding ship suppress firing). -/
noncomputable def Game.handle_key (g : Game) (key : Game.Key) (pressed : Bool) : Game :=
  if g.show_splash_screen && pressed then { g with show_splash_screen := false }
  else if key = Game.Key.LEFT ∧ pressed then { g with ship := g.ship.rotate_left }
  else if key = Game.Key.RIGHT ∧ pressed then { g with ship := g.ship.rotate_right }
  else if key = Game.Key.UP then { g with ship := { g.ship with thrusting := pressed } }
  else if key = Game.Key.FIRE ∧ pressed ∧ ¬g.respawn_delay_active ∧ ¬g.ship.is_exploding then
    { g with projectiles := g.projectiles ++ [Projectile.init g.ship] }
  else g

/-! ## frame_buffer.py -/

/-- The frame buffer pixel grid: the color at (row y, column x). Writes
outside `SCREEN_HEIGHT x SCREEN_WIDTH` are clipped by the drawing code, so
a total function is an adequate model of the fixed-size array. -/
def FrameBuffer := ℤ → ℤ → Color

/-- `FrameBuffer.clear` with the given fill color. -/
def FrameBuffer.clear (color : Color) : FrameBuffer := fun _ _ => color

/-- Modelled from the spec: `frame_buffer.py` imports `Font` and
`ScoreFont` from a `font` module that is not among the snapshots under
`src/`; the spec describes it only as "a small fixed bitmap font" used to
"render right-aligned digits". We model the score font as fixed 3-wide,
5-tall digit glyph bitmaps (any concrete small bitmaps serve; the claims
depend only on glyphs existing for the digit characters). -/
def ScoreFont.get_character (c : Char) : List (List ℕ) :=
  if c = '0' then [[1, 1, 1], [1, 0, 1], [1, 0, 1], [1, 0, 1], [1, 1, 1]]
  else if c = '1' then [[0, 1, 0], [1, 1, 0], [0, 1, 0], [0, 1, 0], [1, 1, 1]]
  else if c = '2' then [[1, 1, 1], [0, 0, 1], [1, 1, 1], [1, 0, 0], [1, 1, 1]]
  else if c = '3' then [[1, 1, 1], [0, 0, 1], [1, 1, 1], [0, 0, 1], [1, 1, 1]]
  else if c = '4' then [[1, 0, 1], [1, 0, 1], [1, 1, 1], [0, 0, 1], [0, 0, 1]]
  else if c = '5' then [[1, 1, 1], [1, 0, 0], [1, 1, 1], [0, 0, 1], [1, 1, 1]]
  else if c = '6' then [[1, 1, 1], [1, 0, 0], [1, 1, 1], [1, 0, 1], [1, 1, 1]]
  else if c = '7' then [[1, 1, 1], [0, 0, 1], [0, 0, 1], [0, 0, 1], [0, 0, 1]]
  else if c = '8' then [[1, 1, 1], [1, 0, 1], [1, 1, 1], [1, 0, 1], [1, 1, 1]]
  else if c = '9' then [[1, 1, 1], [1, 0, 1], [1, 1, 1], [0, 0, 1], [1, 1, 1]]
  else [[1, 1, 1], [1, 1, 1], [1, 1, 1], [1, 1, 1], [1, 1, 1]]

/-- Set one pixel of the grid. -/
def FrameBuffer.set_pixel (fb : FrameBuffer) (y x : ℤ) (color : Color) : FrameBuffer :=
  fun py px => if py = y ∧ px = x then color else fb py px

/-- Draw one glyph bitmap at the given offset: every non-zero bitmap cell
whose absolute coordinates pass the in-buffer mask is set to `color`
(the `np.nonzero` + mask assignment in `draw_text_right_aligned`). -/
def FrameBuffer.draw_glyph (fb : FrameBuffer) (x_offset y_offset : ℤ)
    (pixel_map : List (List ℕ)) (color : Color) : FrameBuffer :=
  pixel_map.enum.foldl
    (fun fbr row =>
      row.2.enum.foldl
        (fun fbc cell =>
          if cell.2 ≠ 0 then
            let abs_x := x_offset + (cell.1 : ℤ)
            let abs_y := y_offset + (row.1 : ℤ)
            if 0 ≤ abs_x ∧ abs_x < (SCREEN_WIDTH : ℤ) ∧
               0 ≤ abs_y ∧ abs_y < (SCREEN_HEIGHT : ℤ) then
              fbc.set_pixel abs_y abs_x color
            else fbc
          else fbc)
        fbr)
    fb

/-- `FrameBuffer.draw_text_right_aligned`: characters placed right to left
from `x`, each preceded by its glyph width, with 2 pixels of spacing. -/
def FrameBuffer.draw_text_right_aligned (fb : FrameBuffer) (x y : ℤ)
    (text : List Char) (font : Char → List (List ℕ)) (color : Color) : FrameBuffer :=
  (text.reverse.foldl
    (fun acc char =>
      let pixel_map := font char
      let w := ((pixel_map.headD []).length : ℤ)
      let x_offset := acc.2 - w
      (FrameBuffer.draw_glyph acc.1 x_offset y pixel_map color, x_offset - 2))
    (fb, x)).1

/-- The `ValueError` classes `draw_score` / `draw_lives` can raise. -/
inductive DrawError where
  | score_out_of_range
  | lives_out_of_range
deriving DecidableEq

/-- `FrameBuffer.draw_score`: validate `0 <= score <= MAX_SCORE` (raising
`ValueError` otherwise), then draw the decimal digits right-aligned at the
horizontal center. -/
def FrameBuffer.draw_score (fb : FrameBuffer) (score : ℤ) (color : Color) :
    Except DrawError FrameBuffer :=
  if ¬(0 ≤ score ∧ score ≤ MAX_SCORE) then Except.error DrawError.score_out_of_range
  else
    Except.ok (fb.draw_text_right_aligned ((SCREEN_WIDTH / 2 : ℕ) : ℤ)
      (SCORE_TOP_MARGIN : ℤ) (toString score).toList ScoreFont.get_character color)

/-- `FrameBuffer.draw_lives`: validate `0 <= lives <= MAX_LIVES` (raising
`ValueError` otherwise), then draw the digits right-aligned near the right
edge. -/
def FrameBuffer.draw_lives (fb : FrameBuffer) (lives : ℤ) (color : Color) :
    Except DrawError FrameBuffer :=
  if ¬(0 ≤ lives ∧ lives ≤ MAX_LIVES) then Except.error DrawError.lives_out_of_range
  else
    Except.ok (fb.draw_text_right_aligned ((SCREEN_WIDTH : ℤ) - (LIVES_RIGHT_MARGIN : ℤ))
      (SCORE_TOP_MARGIN : ℤ) (toString lives).toList ScoreFont.get_character color)

/-- Whether a draw call completed without raising. -/
def draw_ok {T : Type} (r : Except DrawError T) : Bool :=
  match r with
  | .ok _ => true
  | .error _ => false

/-! ## Concrete fixtures used by witnesses and counterexamples -/

/-- A live, non-thrusting ship with some velocity. -/
def shipAlive : Ship :=
  { x := 96, y := 80, vx := 3, vy := 4, direction := 0, thrusting := false,
    lives := 4, exploding := 0 }

/-- A ship mid-explosion. -/
def shipExploding : Ship :=
  { x := 96, y := 80, vx := 3, vy := 4, direction := 0, thrusting := false,
    lives := 4, exploding := 10 }

/-- A ship in the resting game-over state. -/
def shipDead : Ship :=
  { x := 96, y := 80, vx := 0, vy := 0, direction := 0, thrusting := false,
    lives := 0, exploding := 0 }

/-- An asteroid drifting right at one pixel per frame. -/
def astDrift : Asteroid :=
  { x := 100, y := 100, vx := 1, vy := 0, size := Asteroid.Size.LARGE,
    color := (128, 128, 128) }

/-- A LARGE asteroid with unit velocity, used as a split parent. -/
def astSplit : Asteroid :=
  { x := 50, y := 60, vx := 1, vy := 0, size := Asteroid.Size.LARGE,
    color := (90, 90, 90) }

/-- A constant random oracle. -/
def rng0 : Rng :=
  { spawn_pos := fun _ => (100, 100), spawn_size := fun _ => Asteroid.Size.LARGE,
    spawn_color := fun _ => (128, 128, 128), spawn_speed := fun _ => 0.1,
    spawn_angle := fun _ => 0, split_speeds := fun _ => (1, 1),
    split_sign := fun _ => true }

/-- A resting game-over session: no lives, no projectiles, one moving
asteroid. -/
def gameOverState : Game :=
  { score := 0, ship := shipDead, show_splash_screen := false,
    respawn_countdown := 0, level := 1, next_bonus_life := POINTS_FOR_NEW_LIFE,
    asteroids := [astDrift], projectiles := [] }

/-- A session whose score has run far past a stale bonus-life threshold. -/
def gBonus : Game :=
  { score := 9999, ship := shipAlive, show_splash_screen := false,
    respawn_countdown := 0, level := 1, next_bonus_life := 5000,
    asteroids := [], projectiles := [] }

/-- A session with room below the asteroid cap, used as a split context. -/
def gSplit : Game :=
  { score := 0, ship := shipAlive, show_splash_screen := false,
    respawn_countdown := 0, level := 1, next_bonus_life := POINTS_FOR_NEW_LIFE,
    asteroids := [], projectiles := [] }

/-! ## Claims -/

/-- C10: `wrap_position` is idempotent — for every real-valued position,
applying it twice yields the same result as applying it once. -/
theorem wrap_position_idempotent (p : ℝ × ℝ) :
    wrap_position (wrap_position p) = wrap_position p := by
  obtain ⟨h0, h1, h2, h3⟩ := wrap_position_mem p
  exact wrap_position_of_mem _ h0 h1 h2 h3

/-- C5: for every asteroid with any real starting position and velocity,
after one `update()` the position x lies in `[0, SCREEN_WIDTH)` and y lies
in the wrapped vertical play band `[TOP_MARGIN, SCREEN_HEIGHT]` produced by
the shared screen-wrap rule. -/
theorem asteroid_update_in_play_band (a : Asteroid) :
    0 ≤ (a.update).x ∧ (a.update).x < (SCREEN_WIDTH : ℝ) ∧
    (TOP_MARGIN : ℝ) ≤ (a.update).y ∧ (a.update).y ≤ (SCREEN_HEIGHT : ℝ) := by
  unfold Asteroid.update
  exact wrap_position_mem _

/-- C6: `handle_collision()` on a non-exploding ship decrements lives
(floored at 0), zeroes the velocity and starts the fixed explosion
countdown; on an already-exploding ship it is a no-op. -/
theorem ship_handle_collision_spec (s : Ship) :
    (s.is_exploding = false →
      (s.handle_collision).lives = max (s.lives - 1) 0 ∧
      (s.handle_collision).vx = 0 ∧ (s.handle_collision).vy = 0 ∧
      (s.handle_collision).exploding = EXPLOSION_DURATION) ∧
    (s.is_exploding = true → s.handle_collision = s) := by
  unfold Ship.handle_collision Ship.is_exploding
  constructor
  · intro h
    rw [decide_eq_false_iff_not] at h
    rw [if_neg h]
    refine ⟨?_, rfl, rfl, rfl⟩
    show (if s.lives - 1 < 0 then (0 : ℤ) else s.lives - 1) = max (s.lives - 1) 0
    split_ifs with hneg <;> omega
  · intro h
    rw [decide_eq_true_iff] at h
    rw [if_pos h]

theorem ship_handle_collision_spec_witness :
    ((shipAlive.handle_collision).lives = max (shipAlive.lives - 1) 0 ∧
      (shipAlive.handle_collision).vx = 0 ∧ (shipAlive.handle_collision).vy = 0 ∧
      (shipAlive.handle_collision).exploding = EXPLOSION_DURATION) ∧
    shipExploding.handle_collision = shipExploding :=
  ⟨(ship_handle_collision_spec shipAlive).1 rfl,
   (ship_handle_collision_spec shipExploding).2 rfl⟩

/-- C7: with thrusting off, the ship's speed is non-increasing frame over
frame — the clamp and the 0.995 friction factor only ever reduce or
preserve the velocity magnitude. -/
theorem ship_friction_speed_antitone (s : Ship) (h : s.thrusting = false) (n : ℕ) :
    (Ship.update^[n + 1] s).speed ≤ (Ship.update^[n] s).speed := by
  have hthr : ∀ m : ℕ, (Ship.update^[m] s).thrusting = false := by
    intro m
    induction m with
    | zero => simpa using h
    | succ k ih =>
      rw [Function.iterate_succ_apply', Ship.update_thrusting]
      exact ih
  rw [Function.iterate_succ_apply']
  exact Ship.speed_update_le _ (hthr n)

theorem ship_friction_speed_antitone_witness :
    shipAlive.thrusting = false ∧
    (Ship.update^[0 + 1] shipAlive).speed ≤ (Ship.update^[0] shipAlive).speed :=
  ⟨rfl, ship_friction_speed_antitone shipAlive rfl 0⟩

/-- C8: `draw_score` raises exactly when the score is outside
`0..MAX_SCORE` and `draw_lives` raises exactly when the lives value is
outside `0..MAX_LIVES`; within range each returns the buffer with the
decimal digits drawn right-aligned (and does not raise). -/
theorem draw_score_draw_lives_validate (fb : FrameBuffer) (score lives : ℤ) (color : Color) :
    (draw_ok (fb.draw_score score color) = true ↔ 0 ≤ score ∧ score ≤ MAX_SCORE) ∧
    (draw_ok (fb.draw_lives lives color) = true ↔ 0 ≤ lives ∧ lives ≤ MAX_LIVES) ∧
    (0 ≤ score ∧ score ≤ MAX_SCORE →
      fb.draw_score score color = Except.ok
        (fb.draw_text_right_aligned ((SCREEN_WIDTH / 2 : ℕ) : ℤ) (SCORE_TOP_MARGIN : ℤ)
          (toString score).toList ScoreFont.get_character color)) ∧
    (0 ≤ lives ∧ lives ≤ MAX_LIVES →
      fb.draw_lives lives color = Except.ok
        (fb.draw_text_right_aligned ((SCREEN_WIDTH : ℤ) - (LIVES_RIGHT_MARGIN : ℤ))
          (SCORE_TOP_MARGIN : ℤ) (toString lives).toList ScoreFont.get_character color)) := by
  unfold FrameBuffer.draw_score FrameBuffer.draw_lives
  refine ⟨?_, ?_, ?_, ?_⟩ <;>
    · split_ifs with h <;> simp_all [draw_ok]

theorem draw_score_draw_lives_validate_witness :
    (0 ≤ (123 : ℤ) ∧ (123 : ℤ) ≤ MAX_SCORE) ∧
    FrameBuffer.draw_score (FrameBuffer.clear (0, 0, 0)) 123 (255, 0, 0) = Except.ok
      ((FrameBuffer.clear (0, 0, 0)).draw_text_right_aligned ((SCREEN_WIDTH / 2 : ℕ) : ℤ)
        (SCORE_TOP_MARGIN : ℤ) (toString (123 : ℤ)).toList ScoreFont.get_character
        (255, 0, 0)) :=
  ⟨by norm_num [MAX_SCORE],
   (draw_score_draw_lives_validate (FrameBuffer.clear (0, 0, 0)) 123 5 (255, 0, 0)).2.2.1
     (by norm_num [MAX_SCORE])⟩

/-- The bonus-life rule the way the claim words it: a while loop that,
while `score >= next` and `lives < MAX_LIVES`, awards one life and advances
the threshold by `POINTS_FOR_NEW_LIFE`, repeating. Returns the final
(lives, threshold) pair. Used only to compare the code's single check
against the claimed loop. -/
def bonus_life_loop (score next lives : ℤ) : ℤ × ℤ :=
  if h : score ≥ next ∧ lives < MAX_LIVES then
    bonus_life_loop score (next + POINTS_FOR_NEW_LIFE) (lives + 1)
  else (lives, next)
termination_by (score - next + 1).toNat
decreasing_by
  simp only [POINTS_FOR_NEW_LIFE]
  omega

/-- C1 counterexample: in the state `gBonus` (score 9999, stale threshold
5000, 4 lives) a 100-point projectile hit leaves the new score 10099 past
two thresholds (5000 and 10000); the claimed loop would award two lives and
move the threshold to 15000, but `_update_score`'s single check awards one
life and moves the threshold to 10000. -/
theorem update_score_loop_counterexample :
    (gBonus.update_score 100).ship.lives = 5 ∧
    (gBonus.update_score 100).next_bonus_life = 10000 ∧
    bonus_life_loop (gBonus.score + 100) gBonus.next_bonus_life gBonus.ship.lives
      = (6, 15000) ∧
    ¬((5 : ℤ), (10000 : ℤ)) = ((6 : ℤ), (15000 : ℤ)) := by
  refine ⟨?_, ?_, ?_, by decide⟩
  · norm_num [Game.update_score, gBonus, shipAlive, Ship.award_new_life,
      MAX_SCORE, MAX_LIVES, POINTS_FOR_NEW_LIFE]
  · norm_num [Game.update_score, gBonus, shipAlive, Ship.award_new_life,
      MAX_SCORE, MAX_LIVES, POINTS_FOR_NEW_LIFE]
  · rw [bonus_life_loop]
    norm_num [gBonus, shipAlive, MAX_LIVES, POINTS_FOR_NEW_LIFE]
    rw [bonus_life_loop]
    norm_num [MAX_LIVES, POINTS_FOR_NEW_LIFE]
    rw [bonus_life_loop]
    norm_num [MAX_LIVES, POINTS_FOR_NEW_LIFE]

/-- C1 (amended): `_update_score` performs a single bonus-life check per
point award, not a loop — whenever the score is not already saturated, the
new score has reached the current threshold and lives are below
`MAX_LIVES`, exactly one life is awarded and the threshold advances exactly
once by `POINTS_FOR_NEW_LIFE`, no matter how many thresholds the new score
has passed. -/
theorem update_score_single_bonus_award (g : Game) (points : ℤ)
    (h1 : ¬g.score = MAX_SCORE)
    (h2 : g.score + points ≥ g.next_bonus_life)
    (h3 : g.ship.lives < MAX_LIVES) :
    (g.update_score points).ship.lives = g.ship.lives + 1 ∧
    (g.update_score points).next_bonus_life = g.next_bonus_life + POINTS_FOR_NEW_LIFE := by
  rw [Game.update_score, if_neg h1]
  dsimp only
  split_ifs with hbonus hcapA hcapB
  · exact ⟨by simp [Ship.award_new_life], rfl⟩
  · exact ⟨by simp [Ship.award_new_life], rfl⟩
  · exact absurd ⟨h2, h3⟩ hbonus
  · exact absurd ⟨h2, h3⟩ hbonus

theorem update_score_single_bonus_award_witness :
    (¬gBonus.score = MAX_SCORE ∧ gBonus.score + 100 ≥ gBonus.next_bonus_life ∧
      gBonus.ship.lives < MAX_LIVES) ∧
    (gBonus.update_score 100).ship.lives = gBonus.ship.lives + 1 ∧
    (gBonus.update_score 100).next_bonus_life =
      gBonus.next_bonus_life + POINTS_FOR_NEW_LIFE :=
  ⟨⟨by decide, by decide, by decide⟩,
   update_score_single_bonus_award gBonus 100 (by decide) (by decide) (by decide)⟩

/-- One `_update_score` call keeps the score inside `[0, MAX_SCORE]`. -/
theorem Game.update_score_bounds (g : Game) (p : ℤ)
    (h0 : 0 ≤ g.score) (h1 : g.score ≤ MAX_SCORE) (hp : 0 ≤ p) :
    0 ≤ (g.update_score p).score ∧ (g.update_score p).score ≤ MAX_SCORE := by
  have hM : (0 : ℤ) ≤ MAX_SCORE := by norm_num [MAX_SCORE]
  simp only [Game.update_score]
  split_ifs with hmax hbonus hcap hcap2 <;>
    · try dsimp only at *
      omega

/-- C4: the score is confined to `0..MAX_SCORE` under any sequence of
non-negative point awards, and once it equals `MAX_SCORE` every further
award is dropped (the whole update is a no-op). -/
theorem score_saturates (g : Game) (ps : List ℤ)
    (h0 : 0 ≤ g.score) (h1 : g.score ≤ MAX_SCORE) (hps : ∀ p ∈ ps, 0 ≤ p) :
    (0 ≤ (ps.foldl Game.update_score g).score ∧
      (ps.foldl Game.update_score g).score ≤ MAX_SCORE) ∧
    (g.score = MAX_SCORE → ∀ p, g.update_score p = g) := by
  constructor
  · induction ps generalizing g with
    | nil => exact ⟨h0, h1⟩
    | cons p ps ih =>
      simp only [List.foldl_cons]
      have hb := Game.update_score_bounds g p h0 h1 (hps p (by simp))
      exact ih _ hb.1 hb.2 (fun q hq => hps q (by simp [hq]))
  · intro hmax p
    simp only [Game.update_score]
    rw [if_pos hmax]

theorem score_saturates_witness :
    (0 ≤ gBonus.score ∧ gBonus.score ≤ MAX_SCORE ∧ ∀ p ∈ [(100 : ℤ)], 0 ≤ p) ∧
    (0 ≤ (([(100 : ℤ)]).foldl Game.update_score gBonus).score ∧
      (([(100 : ℤ)]).foldl Game.update_score gBonus).score ≤ MAX_SCORE) :=
  ⟨⟨by decide, by decide, by decide⟩,
   (score_saturates gBonus [100] (by decide) (by decide) (by decide)).1⟩

/-- C9: with the splash dismissed and the ship out of lives (game over,
not exploding, no respawn delay pending), a FIRE press still appends a new
projectile — firing is gated only on the respawn delay and the exploding
flag, never on lives. -/
theorem fire_works_after_game_over (g : Game)
    (hs : g.show_splash_screen = false) (hl : g.ship.lives = 0)
    (he : g.ship.is_exploding = false) (hr : g.respawn_countdown = 0) :
    (g.handle_key Game.Key.FIRE true).projectiles =
      g.projectiles ++ [Projectile.init g.ship] := by
  unfold Game.handle_key
  rw [if_neg (by simp [hs])]
  rw [if_neg (by simp), if_neg (by simp), if_neg (by simp)]
  rw [if_pos ⟨rfl, rfl, by simp [Game.respawn_delay_active, hr], by simp [he]⟩]

theorem fire_works_after_game_over_witness :
    (gameOverState.show_splash_screen = false ∧ gameOverState.ship.lives = 0 ∧
      gameOverState.ship.is_exploding = false ∧ gameOverState.respawn_countdown = 0) ∧
    (gameOverState.handle_key Game.Key.FIRE true).projectiles =
      gameOverState.projectiles ++ [Projectile.init gameOverState.ship] :=
  ⟨⟨rfl, rfl, rfl, rfl⟩,
   fire_works_after_game_over gameOverState rfl rfl rfl rfl⟩

/-- With no projectiles in flight, `_update_projectiles` changes nothing. -/
theorem Game.update_projectiles_nil (g : Game) (rng : Rng) (h : g.projectiles = []) :
    g.update_projectiles rng = g := by
  cases g with
  | mk score ship splash respawn level next ast proj =>
    dsimp only at h
    subst h
    simp [Game.update_projectiles, Game.remove_items]

/-- In the resting game-over state (no lives, explosion finished), the ship
branch of the frame update touches neither the ship nor any entity list nor
the score. -/
theorem Game.update_ship_dead (g : Game) (hl : g.ship.lives = 0)
    (he : g.ship.is_exploding = false) :
    (g.update_ship).ship = g.ship ∧ (g.update_ship).asteroids = g.asteroids ∧
    (g.update_ship).projectiles = g.projectiles ∧ (g.update_ship).score = g.score := by
  unfold Game.update_ship
  rw [he]
  simp only [Bool.false_eq_true, if_false]
  split_ifs with hresp hinner hlive hcoll
  · exact ⟨rfl, rfl, rfl, rfl⟩
  · exact ⟨rfl, rfl, rfl, rfl⟩
  · exact absurd hl hlive
  · exact absurd hl hlive
  · exact ⟨rfl, rfl, rfl, rfl⟩

/-- C2 (amended): with lives at 0 and the splash dismissed, `update()`
renders the game-over overlay and skips only the ship branch — in the
resting game-over state (explosion finished, no projectiles in flight) the
ship, score and projectile list are unchanged, but every asteroid is
still advanced (position integrated and wrapped); entity simulation is not
halted by game over. -/
theorem game_over_keeps_simulating (g : Game) (rng : Rng)
    (hs : g.show_splash_screen = false) (hl : g.ship.lives = 0)
    (he : g.ship.is_exploding = false) (hp : g.projectiles = []) :
    Game.renders_game_over g rng = true ∧
    (g.update rng).ship = g.ship ∧
    (g.update rng).score = g.score ∧
    (g.update rng).projectiles = [] ∧
    (g.update rng).asteroids = g.asteroids.map Asteroid.update := by
  have h1 : g.update_projectiles rng = g := Game.update_projectiles_nil g rng hp
  have hga : (g.update_asteroids).ship = g.ship := rfl
  obtain ⟨u1, u2, u3, u4⟩ := Game.update_ship_dead (g.update_asteroids) hl he
  have hlz : ((g.update_asteroids).update_ship).ship.lives = 0 := by
    rw [u1]
    exact hl
  constructor
  · unfold Game.renders_game_over
    rw [h1]
    simp [hs, hlz]
  · unfold Game.update
    rw [if_neg (by simp [hs]), h1, if_pos hlz]
    refine ⟨u1.trans hga, u4, ?_, u2⟩
    rw [u3]
    exact hp

theorem game_over_keeps_simulating_witness :
    (gameOverState.show_splash_screen = false ∧ gameOverState.ship.lives = 0 ∧
      gameOverState.ship.is_exploding = false ∧ gameOverState.projectiles = []) ∧
    (Game.renders_game_over gameOverState rng0 = true ∧
      (gameOverState.update rng0).ship = gameOverState.ship ∧
      (gameOverState.update rng0).score = gameOverState.score ∧
      (gameOverState.update rng0).projectiles = [] ∧
      (gameOverState.update rng0).asteroids =
        gameOverState.asteroids.map Asteroid.update) :=
  ⟨⟨rfl, rfl, rfl, rfl⟩,
   game_over_keeps_simulating gameOverState rng0 rfl rfl rfl rfl⟩

/-- The drifting asteroid moves one pixel right in one update. -/
theorem astDrift_update_pos :
    (Asteroid.update astDrift).x = 101 ∧ (Asteroid.update astDrift).y = 100 := by
  unfold Asteroid.update
  have hb : wrap_position (astDrift.x + astDrift.vx, astDrift.y + astDrift.vy) =
      (astDrift.x + astDrift.vx, astDrift.y + astDrift.vy) := by
    apply wrap_position_of_mem <;>
      norm_num [astDrift, SCREEN_WIDTH, SCREEN_HEIGHT, TOP_MARGIN]
  dsimp only
  rw [hb]
  norm_num [astDrift]

/-- C2 counterexample: in the concrete resting game-over state (zero lives,
splash dismissed) holding one asteroid at (100, 100) with velocity (1, 0),
`update()` moves that asteroid to (101, 100) — the asteroid positions are
not unchanged, so simulation does not stop at game over. -/
theorem game_over_asteroid_moves :
    ((gameOverState.update rng0).asteroids.map fun a => (a.x, a.y)) =
      [((101 : ℝ), (100 : ℝ))] ∧
    (gameOverState.asteroids.map fun a => (a.x, a.y)) = [((100 : ℝ), (100 : ℝ))] ∧
    ¬((101 : ℝ), (100 : ℝ)) = ((100 : ℝ), (100 : ℝ)) := by
  refine ⟨?_, by norm_num [gameOverState, astDrift], by norm_num [Prod.ext_iff]⟩
  have h1 : gameOverState.update_projectiles rng0 = gameOverState :=
    Game.update_projectiles_nil _ _ rfl
  obtain ⟨u1, u2, u3, u4⟩ :=
    Game.update_ship_dead (gameOverState.update_asteroids) rfl rfl
  have hlz : ((gameOverState.update_asteroids).update_ship).ship.lives = 0 := by
    rw [u1]
    rfl
  unfold Game.update
  rw [if_neg (by simp [gameOverState]), h1, if_pos hlz, u2]
  show ((gameOverState.asteroids.map Asteroid.update).map fun a => (a.x, a.y)) =
    [((101 : ℝ), (100 : ℝ))]
  simp only [gameOverState, List.map_map, List.map_cons, List.map_nil, Function.comp]
  rw [astDrift_update_pos.1, astDrift_update_pos.2]

/-- Rotation preserves the squared magnitude. -/
theorem rotate_deg_sq (angle : ℝ) (v : ℝ × ℝ) :
    (rotate_deg angle v).1 ^ 2 + (rotate_deg angle v).2 ^ 2 = v.1 ^ 2 + v.2 ^ 2 := by
  unfold rotate_deg
  dsimp only
  linear_combination (v.1 ^ 2 + v.2 ^ 2) * Real.sin_sq_add_cos_sq (angle * Real.pi / 180)

/-- For a non-zero parent velocity and positive sampled speed,
`permute_velocity` is exactly "rotate, unit-normalize, rescale", and the
resulting vector has magnitude equal to the sampled speed. -/
theorem permute_velocity_spec (v : ℝ × ℝ) (angle sp : ℝ)
    (hv : ¬(v.1 = 0 ∧ v.2 = 0)) (hsp : 0 < sp) :
    permute_velocity v angle sp =
      (sp / Real.sqrt ((rotate_deg angle v).1 ^ 2 + (rotate_deg angle v).2 ^ 2) *
        (rotate_deg angle v).1,
       sp / Real.sqrt ((rotate_deg angle v).1 ^ 2 + (rotate_deg angle v).2 ^ 2) *
        (rotate_deg angle v).2) ∧
    Real.sqrt ((permute_velocity v angle sp).1 ^ 2 + (permute_velocity v angle sp).2 ^ 2)
      = sp := by
  have hvsq : 0 < v.1 ^ 2 + v.2 ^ 2 := by
    rcases not_and_or.mp hv with h | h
    · have h2 : 0 < v.1 ^ 2 := lt_of_le_of_ne (sq_nonneg v.1) (Ne.symm (pow_ne_zero 2 h))
      nlinarith [sq_nonneg v.2]
    · have h2 : 0 < v.2 ^ 2 := lt_of_le_of_ne (sq_nonneg v.2) (Ne.symm (pow_ne_zero 2 h))
      nlinarith [sq_nonneg v.1]
  have hrsq : (rotate_deg angle v).1 ^ 2 + (rotate_deg angle v).2 ^ 2 = v.1 ^ 2 + v.2 ^ 2 :=
    rotate_deg_sq angle v
  have hnpos : 0 < Real.sqrt ((rotate_deg angle v).1 ^ 2 + (rotate_deg angle v).2 ^ 2) := by
    rw [hrsq]
    exact Real.sqrt_pos.mpr hvsq
  have hne : ¬Real.sqrt ((rotate_deg angle v).1 ^ 2 + (rotate_deg angle v).2 ^ 2) = 0 :=
    ne_of_gt hnpos
  have hperm : permute_velocity v angle sp =
      (sp / Real.sqrt ((rotate_deg angle v).1 ^ 2 + (rotate_deg angle v).2 ^ 2) *
        (rotate_deg angle v).1,
       sp / Real.sqrt ((rotate_deg angle v).1 ^ 2 + (rotate_deg angle v).2 ^ 2) *
        (rotate_deg angle v).2) := by
    unfold permute_velocity
    dsimp only
    rw [if_neg hne]
    dsimp only
    simp only [Prod.mk.injEq]
    constructor <;> ring
  refine ⟨hperm, ?_⟩
  rw [hperm]
  dsimp only
  rw [show (sp / Real.sqrt ((rotate_deg angle v).1 ^ 2 + (rotate_deg angle v).2 ^ 2) *
        (rotate_deg angle v).1) ^ 2 +
      (sp / Real.sqrt ((rotate_deg angle v).1 ^ 2 + (rotate_deg angle v).2 ^ 2) *
        (rotate_deg angle v).2) ^ 2 =
      (sp / Real.sqrt ((rotate_deg angle v).1 ^ 2 + (rotate_deg angle v).2 ^ 2)) ^ 2 *
      ((rotate_deg angle v).1 ^ 2 + (rotate_deg angle v).2 ^ 2) from by ring]
  rw [Real.sqrt_mul (sq_nonneg _), Real.sqrt_sq_eq_abs,
      abs_of_nonneg (by positivity : (0 : ℝ) ≤
        sp / Real.sqrt ((rotate_deg angle v).1 ^ 2 + (rotate_deg angle v).2 ^ 2))]
  rw [div_mul_cancel₀ _ hne]

/-- The size class of a split child per parent size. -/
def child_size : Asteroid.Size → Asteroid.Size
  | Asteroid.Size.LARGE => Asteroid.Size.MEDIUM
  | Asteroid.Size.MEDIUM => Asteroid.Size.SMALL
  | Asteroid.Size.SMALL => Asteroid.Size.SMALL

/-- What the spec requires of a split child: spawned at the parent's
position, of the given size class, with the parent's color, and with
velocity equal to the parent's velocity rotated by `angle` degrees,
unit-normalized and rescaled to the freshly sampled speed `sp` (so its
magnitude is exactly `sp`). -/
def is_split_child (parent child : Asteroid) (angle sp : ℝ) (sz : Asteroid.Size) : Prop :=
  child.x = parent.x ∧ child.y = parent.y ∧ child.size = sz ∧
  child.color = parent.color ∧
  (child.vx, child.vy) =
    (sp / Real.sqrt ((rotate_deg angle (parent.vx, parent.vy)).1 ^ 2 +
        (rotate_deg angle (parent.vx, parent.vy)).2 ^ 2) *
      (rotate_deg angle (parent.vx, parent.vy)).1,
     sp / Real.sqrt ((rotate_deg angle (parent.vx, parent.vy)).1 ^ 2 +
        (rotate_deg angle (parent.vx, parent.vy)).2 ^ 2) *
      (rotate_deg angle (parent.vx, parent.vy)).2) ∧
  Real.sqrt (child.vx ^ 2 + child.vy ^ 2) = sp

/-- Every speed in a sampling interval is positive. -/
theorem speed_range_pos (sz : Asteroid.Size) (s : ℝ)
    (h : s ∈ Asteroid.speed_range sz) : 0 < s := by
  cases sz <;>
    · simp only [Asteroid.speed_range, Set.mem_Icc] at h
      linarith [h.1]

/-- A child built by `_handle_asteroid_hit` from `permute_velocity`
satisfies the spec's split-child property. -/
theorem is_split_child_mk (ax ay avx avy : ℝ) (acol : Color)
    (szp sz : Asteroid.Size) (angle sp : ℝ)
    (hv : ¬(avx = 0 ∧ avy = 0)) (hsp : 0 < sp) :
    is_split_child
      { x := ax, y := ay, vx := avx, vy := avy, size := szp, color := acol }
      { x := ax, y := ay, vx := (permute_velocity (avx, avy) angle sp).1,
        vy := (permute_velocity (avx, avy) angle sp).2, size := sz, color := acol }
      angle sp sz := by
  obtain ⟨e1, e2⟩ := permute_velocity_spec (avx, avy) angle sp hv hsp
  exact ⟨rfl, rfl, rfl, rfl, by rw [← e1], e2⟩

/-- C3: the asteroid split rule. Destroying a SMALL asteroid yields no
children. Below the asteroid cap, a LARGE (resp. MEDIUM) parent yields
exactly two MEDIUM (resp. SMALL) children at the parent's position whose
velocities are the parent's velocity rotated by +20 and -20 degrees,
unit-normalized and rescaled to the freshly sampled child speeds (so each
child's speed equals its sample). At or above the cap, exactly one child is
produced, its rotation sign chosen by the random oracle. -/
theorem asteroid_split_rule (g : Game) (a : Asteroid) (s1 s2 : ℝ) (sign : Bool)
    (hv : ¬(a.vx = 0 ∧ a.vy = 0))
    (hs1 : s1 ∈ Asteroid.speed_range (child_size a.size))
    (hs2 : s2 ∈ Asteroid.speed_range (child_size a.size)) :
    (a.size = Asteroid.Size.SMALL → g.handle_asteroid_hit a (s1, s2) sign = []) ∧
    (g.asteroids.length < MAX_ASTEROIDS → ¬a.size = Asteroid.Size.SMALL →
      ∃ c1 c2, g.handle_asteroid_hit a (s1, s2) sign = [c1, c2] ∧
        is_split_child a c1 20 s1 (child_size a.size) ∧
        is_split_child a c2 (-20) s2 (child_size a.size)) ∧
    (g.asteroids.length ≥ MAX_ASTEROIDS → ¬a.size = Asteroid.Size.SMALL →
      ∃ c, g.handle_asteroid_hit a (s1, s2) sign = [c] ∧
        is_split_child a c (if sign then 20 else -20) s1 (child_size a.size)) := by
  have hsp1 : 0 < s1 := speed_range_pos _ _ hs1
  have hsp2 : 0 < s2 := speed_range_pos _ _ hs2
  obtain ⟨ax, ay, avx, avy, asz, acol⟩ := a
  dsimp only at hv hs1 hs2 ⊢
  cases asz with
  | SMALL =>
    refine ⟨fun _ => ?_, fun _ hne => absurd rfl hne, fun _ hne => absurd rfl hne⟩
    unfold Game.handle_asteroid_hit
    split_ifs <;> rfl
  | LARGE =>
    refine ⟨fun hc => absurd hc (by simp), fun hlen _ => ?_, fun hlen _ => ?_⟩
    · have heq : g.handle_asteroid_hit
          { x := ax, y := ay, vx := avx, vy := avy,
            size := Asteroid.Size.LARGE, color := acol } (s1, s2) sign =
          [{ x := ax, y := ay, vx := (permute_velocity (avx, avy) 20 s1).1,
             vy := (permute_velocity (avx, avy) 20 s1).2,
             size := Asteroid.Size.MEDIUM, color := acol },
           { x := ax, y := ay, vx := (permute_velocity (avx, avy) (-20) s2).1,
             vy := (permute_velocity (avx, avy) (-20) s2).2,
             size := Asteroid.Size.MEDIUM, color := acol }] := by
        unfold Game.handle_asteroid_hit
        rw [if_pos (by omega)]
        rfl
      exact ⟨_, _, heq,
        is_split_child_mk ax ay avx avy acol _ _ 20 s1 hv hsp1,
        is_split_child_mk ax ay avx avy acol _ _ (-20) s2 hv hsp2⟩
    · have heq : g.handle_asteroid_hit
          { x := ax, y := ay, vx := avx, vy := avy,
            size := Asteroid.Size.LARGE, color := acol } (s1, s2) sign =
          [{ x := ax, y := ay,
             vx := (permute_velocity (avx, avy) (if sign then 20 else -20) s1).1,
             vy := (permute_velocity (avx, avy) (if sign then 20 else -20) s1).2,
             size := Asteroid.Size.MEDIUM, color := acol }] := by
        unfold Game.handle_asteroid_hit
        rw [if_neg (by omega)]
        rfl
      exact ⟨_, heq,
        is_split_child_mk ax ay avx avy acol _ _ (if sign then 20 else -20) s1 hv hsp1⟩
  | MEDIUM =>
    refine ⟨fun hc => absurd hc (by simp), fun hlen _ => ?_, fun hlen _ => ?_⟩
    · have heq : g.handle_asteroid_hit
          { x := ax, y := ay, vx := avx, vy := avy,
            size := Asteroid.Size.MEDIUM, color := acol } (s1, s2) sign =
          [{ x := ax, y := ay, vx := (permute_velocity (avx, avy) 20 s1).1,
             vy := (permute_velocity (avx, avy) 20 s1).2,
             size := Asteroid.Size.SMALL, color := acol },
           { x := ax, y := ay, vx := (permute_velocity (avx, avy) (-20) s2).1,
             vy := (permute_velocity (avx, avy) (-20) s2).2,
             size := Asteroid.Size.SMALL, color := acol }] := by
        unfold Game.handle_asteroid_hit
        rw [if_pos (by omega)]
        rfl
      exact ⟨_, _, heq,
        is_split_child_mk ax ay avx avy acol _ _ 20 s1 hv hsp1,
        is_split_child_mk ax ay avx avy acol _ _ (-20) s2 hv hsp2⟩
    · have heq : g.handle_asteroid_hit
          { x := ax, y := ay, vx := avx, vy := avy,
            size := Asteroid.Size.MEDIUM, color := acol } (s1, s2) sign =
          [{ x := ax, y := ay,
             vx := (permute_velocity (avx, avy) (if sign then 20 else -20) s1).1,
             vy := (permute_velocity (avx, avy) (if sign then 20 else -20) s1).2,
             size := Asteroid.Size.SMALL, color := acol }] := by
        unfold Game.handle_asteroid_hit
        rw [if_neg (by omega)]
        rfl
      exact ⟨_, heq,
        is_split_child_mk ax ay avx avy acol _ _ (if sign then 20 else -20) s1 hv hsp1⟩

theorem asteroid_split_rule_witness :
    ∃ c1 c2,
      gSplit.handle_asteroid_hit astSplit ((0.15 : ℝ), (0.15 : ℝ)) true = [c1, c2] ∧
      is_split_child astSplit c1 20 0.15 (child_size astSplit.size) ∧
      is_split_child astSplit c2 (-20) 0.15 (child_size astSplit.size) :=
  (asteroid_split_rule gSplit astSplit 0.15 0.15 true
      (by norm_num [astSplit])
      (by norm_num [astSplit, child_size, Asteroid.speed_range, Set.mem_Icc])
      (by norm_num [astSplit, child_size, Asteroid.speed_range, Set.mem_Icc])).2.1
    (by norm_num [gSplit, MAX_ASTEROIDS])
    (by simp [astSplit])
